import Mathlib

/-!
# Verification of the CORS header proxy gateway (`src/index.ts`)

A shallow embedding of the Cloudflare-Worker-style gateway in
`src/index.ts`: route dispatch, target-URL validation against a static
allow-list, origin-scoped CORS response headers, request/response size
ceilings, and forwarding with an abstract upstream.

Platform functions (the WHATWG `URL` constructor, `parseInt`,
case-insensitive `Headers.get`) are modelled by executable Lean
functions; the upstream `fetch` is an explicit parameter mapping the
outbound request to an outcome (success / abort-by-timeout / other
failure).  Each handler returns, besides its `Response`, the list of
outbound requests it issued, so that "no outbound network call occurs"
is expressible.
-/

namespace CorsProxy

/-- A header map, as an association list of name/value pairs. -/
abbrev Headers := List (String × String)

/-- ASCII lowercasing of a string, character by character (the model of
the platform's case normalisation; header names and URL schemes/hosts
are ASCII). -/
def lowerStr (s : String) : String := String.mk (s.data.map Char.toLower)

/-- Whether `pre` is a prefix of `s` (models `String.prototype.startsWith`). -/
def startsWithStr (s pre : String) : Bool := pre.data.isPrefixOf s.data

/-- Model of `Headers.get`: case-insensitive lookup of the first header
with the given name, `none` when absent (JS `null`). -/
def headerGet (hs : Headers) (name : String) : Option String :=
  (hs.find? (fun p => lowerStr p.fst = lowerStr name)).map Prod.snd

/-- Model of `URLSearchParams.get`: first value bound to the given
(case-sensitive) query-parameter name. -/
def searchParamGet (ps : List (String × String)) (name : String) : Option String :=
  (ps.find? (fun p => p.fst = name)).map Prod.snd

/-- JS truthiness of a `string | null` value: `null` and `""` are falsy. -/
def truthy (o : Option String) : Bool :=
  match o with
  | none => false
  | some s => decide (s ≠ "")

/-- Model of the `x || d` default idiom on a `string | null` value `x`. -/
def orDefault (o : Option String) (d : String) : String :=
  match o with
  | none => d
  | some s => if s = "" then d else s

/-- Model of a JS object spread followed by an explicit property,
`{...obj, name: value}`: when the exact key `name` already exists its
value is replaced in place (JS preserves the original insertion order of
an overridden key), otherwise the pair is appended.  Object property
keys compare exactly, not case-insensitively. -/
def setHeader (hs : Headers) (name value : String) : Headers :=
  if hs.any (fun p => p.fst = name) then
    hs.map (fun p => if p.fst = name then (p.fst, value) else p)
  else hs ++ [(name, value)]

/-- The parsed pieces of an absolute URL that `validateApiUrl` inspects:
`protocol` is the scheme with its trailing colon (as in the platform
`URL.protocol`), `hostname` the host without port. -/
structure URL where
  protocol : String
  hostname : String
deriving Repr, DecidableEq

/-- Characters allowed after the first character of a URL scheme. -/
def isSchemeChar (c : Char) : Bool :=
  c.isAlpha ∨ c.isDigit ∨ c = '+' ∨ c = '-' ∨ c = '.'

/-- A scheme is a nonempty alphabetic-led run of scheme characters. -/
def validScheme (cs : List Char) : Bool :=
  match cs with
  | [] => false
  | c :: rest => c.isAlpha && rest.all isSchemeChar

/-- Split a character list at the first occurrence of the pattern `pat`:
the part before it and the part after it, or `none` when `pat` does not
occur. -/
def breakOnSub (pat : List Char) : List Char → Option (List Char × List Char)
  | [] => none
  | c :: rest =>
    if pat.isPrefixOf (c :: rest) then some ([], (c :: rest).drop pat.length)
    else
      match breakOnSub pat rest with
      | none => none
      | some (pre, suf) => some (c :: pre, suf)

/-- Model of the platform WHATWG `new URL(s)` constructor restricted to
the `scheme://host…` shape the gateway handles: the scheme (before the
first `://`) must be a valid nonempty scheme, the host (up to `/`, `?`
or `#`, with an optional `:port` stripped) must be nonempty; scheme and
host are lowercased as the platform does.  Userinfo and IPv6 literals
are not modelled.  Returns `none` where the platform constructor throws. -/
def parseURL (s : String) : Option URL :=
  match breakOnSub [':', '/', '/'] s.data with
  | none => none
  | some (scheme, after) =>
    let hostport := after.takeWhile (fun c => ¬ (c = '/' ∨ c = '?' ∨ c = '#'))
    let host := hostport.takeWhile (fun c => c ≠ ':')
    if validScheme scheme ∧ host ≠ [] then
      some { protocol := String.mk (scheme.map Char.toLower) ++ ":",
             hostname := String.mk (host.map Char.toLower) }
    else
      none

/-- `ALLOWED_ORIGINS` (src/index.ts lines 3-7): the static origin allow-list. -/
def ALLOWED_ORIGINS : List String :=
  ["https://yourdomain.com", "https://app.yourdomain.com", "https://staging.yourdomain.com"]

/-- `ALLOWED_APIS` (src/index.ts lines 9-13): the static target allow-list. -/
def ALLOWED_APIS : List String :=
  ["https://httpbin.org", "https://api.example.com", "https://trusted-api.com"]

/-- `PROXY_ENDPOINT` (src/index.ts line 16). -/
def PROXY_ENDPOINT : String := "/corsproxy/"

/-- `RATE_LIMIT_PER_MINUTE` (src/index.ts line 15); declared in the source
but never enforced anywhere. -/
def RATE_LIMIT_PER_MINUTE : Nat := 60

/-- `validateOrigin` (src/index.ts lines 18-21): an absent (or empty,
hence falsy) origin is trusted; a present origin must be an exact member
of `ALLOWED_ORIGINS`. -/
def validateOrigin (origin : Option String) : Bool :=
  match origin with
  | none => true
  | some s => if s = "" then true else ALLOWED_ORIGINS.contains s

/-- The `ALLOWED_APIS.some(...)` callback loop inside `validateApiUrl`
(src/index.ts lines 27-31): scan the allow-list in order; parsing an
entry with `new URL` throws out of `.some` into the surrounding `catch`
(modelled as an immediate `false`); a parsed entry matches when hostname
and protocol both agree exactly. -/
def someAllowedMatch (u : URL) : List String → Bool
  | [] => false
  | a :: rest =>
    match parseURL a with
    | none => false
    | some au =>
      if u.hostname = au.hostname ∧ u.protocol = au.protocol then true
      else someAllowedMatch u rest

/-- `validateApiUrl` (src/index.ts lines 23-35): falsy input fails;
an input the `URL` constructor rejects fails (the `catch` branch);
otherwise the (protocol, hostname) pair must exactly match some entry
of `ALLOWED_APIS`. -/
def validateApiUrl (apiUrl : Option String) : Bool :=
  match apiUrl with
  | none => false
  | some s =>
    if s = "" then false
    else
      match parseURL s with
      | none => false
      | some u => someAllowedMatch u ALLOWED_APIS

/-- The five CORS headers returned for a trusted origin `o`
(src/index.ts lines 39-45). -/
def corsHeadersFor (o : String) : Headers :=
  [("Access-Control-Allow-Origin", o),
   ("Access-Control-Allow-Methods", "GET, HEAD, POST, OPTIONS"),
   ("Access-Control-Allow-Headers", "Content-Type, Authorization, X-Requested-With"),
   ("Access-Control-Max-Age", "86400"),
   ("Vary", "Origin")]

/-- `getCorsHeaders` (src/index.ts lines 37-46): no headers at all for a
falsy or untrusted origin, else the five CORS headers echoing the origin. -/
def getCorsHeaders (origin : Option String) : Headers :=
  match origin with
  | none => []
  | some o =>
    if o = "" ∨ validateOrigin (some o) = false then []
    else corsHeadersFor o

/-- Whitespace characters that `parseInt` skips. -/
def isWsChar (c : Char) : Bool :=
  c = ' ' ∨ c = '\t' ∨ c = '\n' ∨ c = '\r' ∨ c = '\x0b' ∨ c = '\x0c'

/-- Numeric value of a (decimal or hexadecimal) digit character. -/
def hexDigitVal (c : Char) : Nat :=
  if c.isDigit then c.toNat - '0'.toNat
  else if 'a' ≤ c ∧ c ≤ 'f' then c.toNat - 'a'.toNat + 10
  else if 'A' ≤ c ∧ c ≤ 'F' then c.toNat - 'A'.toNat + 10
  else 0

/-- Whether `c` is a digit in the given radix (only 10 and 16 arise). -/
def isRadixDigit (radix : Nat) (c : Char) : Bool :=
  if radix = 16 then c.isDigit ∨ ('a' ≤ c ∧ c ≤ 'f') ∨ ('A' ≤ c ∧ c ≤ 'F')
  else c.isDigit

/-- Model of the platform `parseInt(s)` with no radix argument: skip
leading whitespace, take an optional sign, switch to radix 16 after a
`0x`/`0X` prefix, then read the longest digit run; `none` models `NaN`
(no digits at all).  Any trailing garbage after the digit run is
ignored, as the platform does. -/
def parseIntJS (s : String) : Option Int :=
  let cs := s.toList.dropWhile isWsChar
  let signed : Int × List Char :=
    match cs with
    | '-' :: rest => (-1, rest)
    | '+' :: rest => (1, rest)
    | _ => (1, cs)
  let based : Nat × List Char :=
    match signed.2 with
    | '0' :: 'x' :: rest => (16, rest)
    | '0' :: 'X' :: rest => (16, rest)
    | _ => (10, signed.2)
  let ds := based.2.takeWhile (isRadixDigit based.1)
  match ds with
  | [] => none
  | _ =>
    some (signed.1 * (ds.foldl (fun a c => a * based.1 + hexDigitVal c) 0 : Nat))

/-- The request-size guard (src/index.ts lines 74-75):
`contentLength && parseInt(contentLength) > 1024 * 1024`.
A falsy (absent or empty) header or a `NaN` parse leaves the guard off. -/
def requestTooLarge (cl : Option String) : Bool :=
  match cl with
  | none => false
  | some s =>
    if s = "" then false
    else
      match parseIntJS s with
      | none => false
      | some n => decide (n > 1024 * 1024)

/-- The response-size guard (src/index.ts lines 100-101):
`responseSize && parseInt(responseSize) > 10 * 1024 * 1024`. -/
def responseTooLarge (cl : Option String) : Bool :=
  match cl with
  | none => false
  | some s =>
    if s = "" then false
    else
      match parseIntJS s with
      | none => false
      | some n => decide (n > 10 * 1024 * 1024)

/-- The parsed inbound `request.url` (always a valid absolute URL on the
platform): the pieces the gateway reads, `pathname` and the query
parameters. -/
structure InboundUrl where
  pathname : String
  searchParams : List (String × String)
deriving Repr, DecidableEq

/-- An inbound HTTP request as the gateway consumes it. -/
structure Request where
  method : String
  url : InboundUrl
  headers : Headers
  body : Option String
deriving Repr, DecidableEq

/-- The outbound request built by `new Request(apiUrl, ...)`
(src/index.ts lines 86-93). -/
structure ProxyRequest where
  url : String
  method : String
  headers : Headers
  body : Option String
deriving Repr, DecidableEq

/-- An upstream HTTP response as `fetch` delivers it. -/
structure UpstreamResponse where
  status : Nat
  statusText : String
  headers : Headers
  body : Option String
deriving Repr, DecidableEq

/-- Outcome of the single awaited `fetch(proxyRequest, {signal})`
(src/index.ts line 97): a response, an `AbortError` raised by the
10-second timeout, or any other transport failure. -/
inductive FetchOutcome where
  | success (resp : UpstreamResponse)
  | timeout
  | failure
deriving Repr, DecidableEq

/-- The JSON values appearing in the gateway's error bodies. -/
inductive JVal where
  | str (s : String)
  | arr (xs : List String)
deriving Repr, DecidableEq

/-- A response body: a `JSON.stringify`-serialised object (gateway
errors), a passed-through upstream stream, or a static HTML page. -/
inductive RespBody where
  | jsonObj (fields : List (String × JVal))
  | stream (s : String)
  | page (s : String)
deriving Repr, DecidableEq

/-- A response as the gateway produces it (`new Response(...)`; omitted
status defaults to 200 and statusText to the empty string). -/
structure Response where
  status : Nat
  statusText : String
  headers : Headers
  body : Option RespBody
deriving Repr, DecidableEq

/-- The header object `{ 'Content-Type': 'application/json',
...getCorsHeaders(origin) }` used by every gateway-generated error
response; the spread keys never collide with `Content-Type`. -/
def jsonErrorHeaders (origin : Option String) : Headers :=
  ("Content-Type", "application/json") :: getCorsHeaders origin

/-- The 403 response (src/index.ts lines 54-61). -/
def forbiddenResponse (origin : Option String) : Response :=
  { status := 403, statusText := ""
    headers := jsonErrorHeaders origin
    body := some (.jsonObj
      [("error", .str "Forbidden"),
       ("message", .str "Target API not allowed"),
       ("allowedApis", .arr ALLOWED_APIS)]) }

/-- The 400 response (src/index.ts lines 65-71). -/
def badRequestResponse (origin : Option String) : Response :=
  { status := 400, statusText := ""
    headers := jsonErrorHeaders origin
    body := some (.jsonObj
      [("error", .str "Bad Request"),
       ("message", .str "Invalid API URL format")]) }

/-- The 413 response (src/index.ts lines 76-82). -/
def requestTooLargeResponse (origin : Option String) : Response :=
  { status := 413, statusText := ""
    headers := jsonErrorHeaders origin
    body := some (.jsonObj
      [("error", .str "Request Too Large"),
       ("message", .str "Request body too large (max 1MB)")]) }

/-- The 502 oversized-response response (src/index.ts lines 102-108). -/
def responseTooLargeResponse (origin : Option String) : Response :=
  { status := 502, statusText := ""
    headers := jsonErrorHeaders origin
    body := some (.jsonObj
      [("error", .str "Response Too Large"),
       ("message", .str "Response too large (max 10MB)")]) }

/-- The 504 timeout response (src/index.ts lines 123-129). -/
def gatewayTimeoutResponse (origin : Option String) : Response :=
  { status := 504, statusText := ""
    headers := jsonErrorHeaders origin
    body := some (.jsonObj
      [("error", .str "Gateway Timeout"),
       ("message", .str "Request timed out")]) }

/-- The 502 transport-failure response (src/index.ts lines 131-137). -/
def badGatewayResponse (origin : Option String) : Response :=
  { status := 502, statusText := ""
    headers := jsonErrorHeaders origin
    body := some (.jsonObj
      [("error", .str "Bad Gateway"),
       ("message", .str "Failed to fetch from target API")]) }

/-- The pass-through success response (src/index.ts lines 111-119):
status, status text and body copied from upstream; headers rebuilt as
content-type (defaulted), content-length (defaulted to empty) and the
CORS headers. -/
def passThroughResponse (resp : UpstreamResponse) (origin : Option String) : Response :=
  { status := resp.status, statusText := resp.statusText
    headers :=
      ("Content-Type", orDefault (headerGet resp.headers "Content-Type") "application/json")
        :: ("Content-Length", orDefault (headerGet resp.headers "Content-Length") "")
        :: getCorsHeaders origin
    body := resp.body.map RespBody.stream }

/-- `new Request(apiUrl, {...})` (src/index.ts lines 86-93): method and
body copied, headers reduced to a defaulted `Content-Type` and a fixed
`User-Agent`. -/
def mkProxyRequest (apiUrl : String) (req : Request) : ProxyRequest :=
  { url := apiUrl
    method := req.method
    headers :=
      [("Content-Type", orDefault (headerGet req.headers "Content-Type") "application/json"),
       ("User-Agent", "SecureCorsProxy/1.0")]
    body := req.body }

/-- The forwarding phase of `handleSecureRequest` (src/index.ts lines
85-138): the single awaited `fetch`, whose `AbortError` gives 504 and
any other transport failure 502; a successful response with an
oversized declared size gives 502, otherwise the pass-through response.
Exactly one outbound request is issued. -/
def forwardPhase (upstream : ProxyRequest → FetchOutcome) (origin : Option String)
    (preq : ProxyRequest) : Response × List ProxyRequest :=
  match upstream preq with
  | .timeout => (gatewayTimeoutResponse origin, [preq])
  | .failure => (badGatewayResponse origin, [preq])
  | .success resp =>
    if responseTooLarge (headerGet resp.headers "content-length") then
      (responseTooLargeResponse origin, [preq])
    else
      (passThroughResponse resp origin, [preq])

/-- `handleSecureRequest` (src/index.ts lines 48-139), paired with the
list of outbound requests issued.  Branches in source order: the
`validateApiUrl` 403 guard; the `new URL(apiUrl)` re-parse whose `catch`
returns 400 (the parameter has already survived `validateApiUrl`, so in
the `some` case the earlier parse succeeded); the 1 MiB request-size
413 guard; then the forwarding phase. -/
def handleSecureRequest (upstream : ProxyRequest → FetchOutcome) (req : Request) :
    Response × List ProxyRequest :=
  let origin := headerGet req.headers "Origin"
  match searchParamGet req.url.searchParams "apiurl" with
  | none => (forbiddenResponse origin, [])
  | some s =>
    if validateApiUrl (some s) = false then (forbiddenResponse origin, [])
    else
      match parseURL s with
      | none => (badRequestResponse origin, [])
      | some _ =>
        if requestTooLarge (headerGet req.headers "content-length") then
          (requestTooLargeResponse origin, [])
        else
          forwardPhase upstream origin (mkProxyRequest s req)

/-- The early-return guard of `handleOptions` (src/index.ts line 143):
`origin && !validateOrigin(origin)`. -/
def optionsReject (origin : Option String) : Bool :=
  match origin with
  | none => false
  | some o => decide (o ≠ "") && !(validateOrigin (some o))

/-- `handleOptions` (src/index.ts lines 141-163): a truthy untrusted
origin gets a bare 200; otherwise a request carrying
`Access-Control-Request-Method` (even empty — the source tests
`!== null`) gets the CORS headers with the echoed
`Access-Control-Allow-Headers` overriding the static one (the
`{...corsHeaders, "Access-Control-Allow-Headers": …}` spread assigns the
explicit key last), and any other OPTIONS request a plain `Allow`
listing. -/
def handleOptions (req : Request) : Response :=
  let origin := headerGet req.headers "Origin"
  if optionsReject origin then
    { status := 200, statusText := "", headers := [], body := none }
  else
    let corsHeaders := getCorsHeaders origin
    match headerGet req.headers "Access-Control-Request-Method" with
    | some _ =>
      { status := 200, statusText := ""
        headers := setHeader corsHeaders "Access-Control-Allow-Headers"
          (orDefault (headerGet req.headers "Access-Control-Request-Headers") "Content-Type")
        body := none }
    | none =>
      { status := 200, statusText := ""
        headers := ("Allow", "GET, HEAD, POST, OPTIONS") :: corsHeaders
        body := none }

/-- The 405 response of the dispatcher (src/index.ts lines 199-208);
note it attaches no CORS headers. -/
def methodNotAllowedResponse : Response :=
  { status := 405, statusText := ""
    headers := [("Content-Type", "application/json"),
                ("Allow", "GET, HEAD, POST, PUT, DELETE, OPTIONS")]
    body := some (.jsonObj
      [("error", .str "Method Not Allowed"),
       ("message", .str "Only GET, HEAD, POST, PUT, DELETE methods allowed")]) }

/-- `getSecureDemoPage` (src/index.ts lines 165-191): a static HTML
page.  Its markup is presentation, out of the specification's scope; the
embedding keeps only that it is an HTML document. -/
def getSecureDemoPage : String := "<!DOCTYPE html><html>CORS Proxy Demo</html>"

/-- The demo-page response of the dispatcher (src/index.ts lines 210-212). -/
def demoPageResponse : Response :=
  { status := 200, statusText := ""
    headers := [("Content-Type", "text/html;charset=UTF-8")]
    body := some (.page getSecureDemoPage) }

/-- The methods the dispatcher forwards (src/index.ts line 196). -/
def FORWARDED_METHODS : List String := ["GET", "HEAD", "POST", "PUT", "DELETE"]

/-- The exported `fetch` handler's routing (src/index.ts lines 193-213):
paths under `PROXY_ENDPOINT` dispatch to `handleOptions`,
`handleSecureRequest` or the 405 response by method; every other path
serves the demo page.  Paired with the outbound requests issued. -/
def gatewayFetch (upstream : ProxyRequest → FetchOutcome) (req : Request) :
    Response × List ProxyRequest :=
  if startsWithStr req.url.pathname PROXY_ENDPOINT then
    if req.method = "OPTIONS" then (handleOptions req, [])
    else if FORWARDED_METHODS.contains req.method then handleSecureRequest upstream req
    else (methodNotAllowedResponse, [])
  else (demoPageResponse, [])

/-! ## Predicates used by the verified properties -/

/-- The possible first components of `handleSecureRequest`: one of the
six gateway-generated JSON error responses, or the upstream
pass-through. -/
def isGatewayShape (origin : Option String) (r : Response) : Prop :=
  r = forbiddenResponse origin ∨ r = badRequestResponse origin ∨
  r = requestTooLargeResponse origin ∨ r = responseTooLargeResponse origin ∨
  r = gatewayTimeoutResponse origin ∨ r = badGatewayResponse origin ∨
  ∃ resp, r = passThroughResponse resp origin

/-- Soundness of the `Access-Control-Allow-Origin` header of a response
with respect to the request's `Origin` value: either absent, or equal to
the request's origin and a member of the static allow-list. -/
def acaoSound (origin : Option String) (r : Response) : Prop :=
  headerGet r.headers "Access-Control-Allow-Origin" = none ∨
  ∃ o, origin = some o ∧ o ∈ ALLOWED_ORIGINS ∧
    headerGet r.headers "Access-Control-Allow-Origin" = some o

/-- A response carries none of the five CORS headers. -/
def noCorsHeaders (r : Response) : Prop :=
  headerGet r.headers "Access-Control-Allow-Origin" = none ∧
  headerGet r.headers "Access-Control-Allow-Methods" = none ∧
  headerGet r.headers "Access-Control-Allow-Headers" = none ∧
  headerGet r.headers "Access-Control-Max-Age" = none ∧
  headerGet r.headers "Vary" = none

/-! ## Concrete instances used as witnesses and counterexamples -/

/-- An upstream that always fails with a non-abort transport error. -/
def uFail : ProxyRequest → FetchOutcome := fun _ => .failure

/-- An upstream that always times out (`AbortError`). -/
def uTime : ProxyRequest → FetchOutcome := fun _ => .timeout

/-- A fixed successful upstream response, carrying a `Set-Cookie` header
that the gateway must strip. -/
def respOk : UpstreamResponse :=
  { status := 200, statusText := "OK"
    headers := [("Content-Type", "application/json"), ("Content-Length", "10"),
                ("Set-Cookie", "session=1"), ("Authorization", "Bearer tok")]
    body := some "hello-body" }

/-- An upstream that always answers with `respOk`. -/
def uOk : ProxyRequest → FetchOutcome := fun _ => .success respOk

/-- A GET to the proxy route whose `apiurl` is present but not parseable
as an absolute URL. -/
def reqBadUrl : Request :=
  { method := "GET"
    url := { pathname := "/corsproxy/", searchParams := [("apiurl", "ht!tp:::bad")] }
    headers := []
    body := none }

/-- A valid proxied GET from a trusted origin. -/
def reqValidGet : Request :=
  { method := "GET"
    url := { pathname := "/corsproxy/", searchParams := [("apiurl", "https://httpbin.org/get")] }
    headers := [("Origin", "https://yourdomain.com")]
    body := none }

/-- A valid proxied GET with no `Origin` header. -/
def reqNoOrigin : Request :=
  { method := "GET"
    url := { pathname := "/corsproxy/", searchParams := [("apiurl", "https://httpbin.org/get")] }
    headers := []
    body := none }

/-- A PATCH to the proxy route from a trusted origin (dispatches to the
405 branch). -/
def reqPatchTrusted : Request :=
  { method := "PATCH"
    url := { pathname := "/corsproxy/", searchParams := [("apiurl", "https://httpbin.org/get")] }
    headers := [("Origin", "https://yourdomain.com")]
    body := none }

/-- An OPTIONS preflight from a non-allow-listed origin. -/
def reqEvilOptions : Request :=
  { method := "OPTIONS"
    url := { pathname := "/corsproxy/", searchParams := [] }
    headers := [("Origin", "https://evil.com"), ("Access-Control-Request-Method", "GET")]
    body := none }

/-- An OPTIONS preflight from a trusted origin requesting a custom header. -/
def reqPreflight : Request :=
  { method := "OPTIONS"
    url := { pathname := "/corsproxy/", searchParams := [] }
    headers := [("Origin", "https://yourdomain.com"),
                ("Access-Control-Request-Method", "POST"),
                ("Access-Control-Request-Headers", "X-Custom-Header")]
    body := none }

/-- A valid proxied POST declaring a body just over the 1 MiB ceiling. -/
def reqBigBody : Request :=
  { method := "POST"
    url := { pathname := "/corsproxy/", searchParams := [("apiurl", "https://httpbin.org/post")] }
    headers := [("Origin", "https://yourdomain.com"), ("content-length", "1048577")]
    body := some "payload" }

/-- A valid proxied POST whose `Content-Length` does not parse to a
number (`parseInt` yields `NaN`). -/
def reqNanLength : Request :=
  { method := "POST"
    url := { pathname := "/corsproxy/", searchParams := [("apiurl", "https://httpbin.org/post")] }
    headers := [("content-length", "oops")]
    body := some "payload" }

/-- A GET to the proxy route with no `apiurl` query parameter at all. -/
def reqNoParam : Request :=
  { method := "GET"
    url := { pathname := "/corsproxy/", searchParams := [] }
    headers := [("Origin", "https://yourdomain.com")]
    body := none }

/-! ## Lemmas about header lookup and the validators -/

lemma headerGet_nil (name : String) : headerGet [] name = none := rfl

lemma headerGet_cons (k v : String) (hs : Headers) (name : String) :
    headerGet ((k, v) :: hs) name =
      if lowerStr k = lowerStr name then some v else headerGet hs name := by
  unfold headerGet
  by_cases h : lowerStr k = lowerStr name <;> simp [List.find?, h]

lemma validateOrigin_iff (o : String) :
    validateOrigin (some o) = true ↔ o = "" ∨ o ∈ ALLOWED_ORIGINS := by
  unfold validateOrigin
  by_cases hs : o = "" <;> simp [hs]

lemma getCorsHeaders_trusted (o : String) (h0 : o ≠ "") (h1 : o ∈ ALLOWED_ORIGINS) :
    getCorsHeaders (some o) = corsHeadersFor o := by
  have hv : validateOrigin (some o) = true := (validateOrigin_iff o).2 (Or.inr h1)
  unfold getCorsHeaders
  simp [h0, hv]

lemma getCorsHeaders_untrusted (o : String) (h1 : o ∉ ALLOWED_ORIGINS) :
    getCorsHeaders (some o) = [] := by
  by_cases h0 : o = ""
  · unfold getCorsHeaders; simp [h0]
  · have hv : validateOrigin (some o) = false := by
      cases hvv : validateOrigin (some o)
      · rfl
      · rcases (validateOrigin_iff o).1 hvv with h | h
        · exact absurd h h0
        · exact absurd h h1
    unfold getCorsHeaders; simp [hv]

lemma getCorsHeaders_cases (origin : Option String) :
    getCorsHeaders origin = [] ∨
      ∃ o, origin = some o ∧ o ≠ "" ∧ o ∈ ALLOWED_ORIGINS ∧
        getCorsHeaders origin = corsHeadersFor o := by
  cases origin with
  | none => exact Or.inl rfl
  | some o =>
    by_cases h0 : o = ""
    · left; unfold getCorsHeaders; simp [h0]
    · by_cases h1 : o ∈ ALLOWED_ORIGINS
      · exact Or.inr ⟨o, rfl, h0, h1, getCorsHeaders_trusted o h0 h1⟩
      · exact Or.inl (getCorsHeaders_untrusted o h1)

lemma corsHeadersFor_acao (o : String) :
    headerGet (corsHeadersFor o) "Access-Control-Allow-Origin" = some o := by
  simp +decide [corsHeadersFor, headerGet_cons]

lemma corsHeadersFor_vary (o : String) :
    headerGet (corsHeadersFor o) "Vary" = some "Origin" := by
  simp +decide [corsHeadersFor, headerGet_cons, headerGet_nil]

lemma validateApiUrl_parse (s : String) (h : validateApiUrl (some s) = true) :
    ∃ u, parseURL s = some u := by
  simp only [validateApiUrl] at h
  by_cases hs : s = ""
  · simp [hs] at h
  · rw [if_neg hs] at h
    cases hp : parseURL s with
    | none => rw [hp] at h; cases h
    | some u => exact ⟨u, rfl⟩

/-! ## Branch lemmas for the secure handler -/

lemma handleSecureRequest_invalid (upstream : ProxyRequest → FetchOutcome) (req : Request)
    (h : validateApiUrl (searchParamGet req.url.searchParams "apiurl") = false) :
    handleSecureRequest upstream req =
      (forbiddenResponse (headerGet req.headers "Origin"), []) := by
  unfold handleSecureRequest
  cases hq : searchParamGet req.url.searchParams "apiurl" with
  | none => rfl
  | some s =>
    rw [hq] at h
    simp [h]

lemma handleSecureRequest_tooLarge (upstream : ProxyRequest → FetchOutcome) (req : Request)
    (s : String)
    (hq : searchParamGet req.url.searchParams "apiurl" = some s)
    (hv : validateApiUrl (some s) = true)
    (hl : requestTooLarge (headerGet req.headers "content-length") = true) :
    handleSecureRequest upstream req =
      (requestTooLargeResponse (headerGet req.headers "Origin"), []) := by
  obtain ⟨u, hu⟩ := validateApiUrl_parse s hv
  unfold handleSecureRequest
  simp [hq, hv, hu, hl]

lemma handleSecureRequest_forward (upstream : ProxyRequest → FetchOutcome) (req : Request)
    (s : String)
    (hq : searchParamGet req.url.searchParams "apiurl" = some s)
    (hv : validateApiUrl (some s) = true)
    (hl : requestTooLarge (headerGet req.headers "content-length") = false) :
    handleSecureRequest upstream req =
      forwardPhase upstream (headerGet req.headers "Origin") (mkProxyRequest s req) := by
  obtain ⟨u, hu⟩ := validateApiUrl_parse s hv
  unfold handleSecureRequest
  simp [hq, hv, hu, hl]

lemma forwardPhase_snd (upstream : ProxyRequest → FetchOutcome) (origin : Option String)
    (preq : ProxyRequest) : (forwardPhase upstream origin preq).snd = [preq] := by
  unfold forwardPhase
  cases upstream preq with
  | timeout => rfl
  | failure => rfl
  | success resp =>
    by_cases h : responseTooLarge (headerGet resp.headers "content-length") <;> simp [h]

lemma forwardPhase_shape (upstream : ProxyRequest → FetchOutcome) (origin : Option String)
    (preq : ProxyRequest) : isGatewayShape origin (forwardPhase upstream origin preq).fst := by
  unfold isGatewayShape forwardPhase
  cases ho : upstream preq with
  | timeout => exact Or.inr (Or.inr (Or.inr (Or.inr (Or.inl rfl))))
  | failure => exact Or.inr (Or.inr (Or.inr (Or.inr (Or.inr (Or.inl rfl)))))
  | success resp =>
    by_cases hr : responseTooLarge (headerGet resp.headers "content-length")
    · simp [hr]
    · refine Or.inr (Or.inr (Or.inr (Or.inr (Or.inr (Or.inr ⟨resp, ?_⟩)))))
      simp [hr]

lemma handleSecureRequest_shape (upstream : ProxyRequest → FetchOutcome) (req : Request) :
    isGatewayShape (headerGet req.headers "Origin") (handleSecureRequest upstream req).fst := by
  by_cases hv : validateApiUrl (searchParamGet req.url.searchParams "apiurl") = false
  · rw [handleSecureRequest_invalid upstream req hv]
    exact Or.inl rfl
  · have hvt : validateApiUrl (searchParamGet req.url.searchParams "apiurl") = true := by
      cases h : validateApiUrl (searchParamGet req.url.searchParams "apiurl")
      · exact absurd h hv
      · rfl
    cases hq : searchParamGet req.url.searchParams "apiurl" with
    | none => rw [hq] at hvt; cases hvt
    | some s =>
      rw [hq] at hvt
      by_cases hl : requestTooLarge (headerGet req.headers "content-length")
      · rw [handleSecureRequest_tooLarge upstream req s hq hvt hl]
        exact Or.inr (Or.inr (Or.inl rfl))
      · rw [handleSecureRequest_forward upstream req s hq hvt (by simpa using hl)]
        exact forwardPhase_shape upstream _ _

/-! ## Branch lemmas for the OPTIONS handler and the dispatcher -/

lemma handleOptions_reject (req : Request)
    (h : optionsReject (headerGet req.headers "Origin") = true) :
    handleOptions req = { status := 200, statusText := "", headers := [], body := none } := by
  unfold handleOptions
  rw [if_pos h]

lemma handleOptions_preflight (req : Request) (m : String)
    (h : optionsReject (headerGet req.headers "Origin") = false)
    (hm : headerGet req.headers "Access-Control-Request-Method" = some m) :
    handleOptions req =
      { status := 200, statusText := ""
        headers := setHeader (getCorsHeaders (headerGet req.headers "Origin"))
          "Access-Control-Allow-Headers"
          (orDefault (headerGet req.headers "Access-Control-Request-Headers") "Content-Type")
        body := none } := by
  unfold handleOptions
  rw [if_neg (by simp [h]), hm]

lemma handleOptions_standard (req : Request)
    (h : optionsReject (headerGet req.headers "Origin") = false)
    (hm : headerGet req.headers "Access-Control-Request-Method" = none) :
    handleOptions req =
      { status := 200, statusText := ""
        headers := ("Allow", "GET, HEAD, POST, OPTIONS") ::
          getCorsHeaders (headerGet req.headers "Origin")
        body := none } := by
  unfold handleOptions
  rw [if_neg (by simp [h]), hm]

lemma gatewayFetch_forwarded (upstream : ProxyRequest → FetchOutcome) (req : Request)
    (hroute : startsWithStr req.url.pathname PROXY_ENDPOINT = true)
    (hm : FORWARDED_METHODS.contains req.method = true) :
    gatewayFetch upstream req = handleSecureRequest upstream req := by
  unfold gatewayFetch
  rw [if_pos hroute]
  have hne : ¬ (req.method = "OPTIONS") := by
    intro he
    rw [he] at hm
    exact absurd hm (by decide)
  rw [if_neg hne, if_pos hm]

lemma gatewayFetch_options (upstream : ProxyRequest → FetchOutcome) (req : Request)
    (hroute : startsWithStr req.url.pathname PROXY_ENDPOINT = true)
    (hm : req.method = "OPTIONS") :
    gatewayFetch upstream req = (handleOptions req, []) := by
  unfold gatewayFetch
  rw [if_pos hroute, if_pos hm]

/-! ## Lemmas about the allow-list scan -/

lemma someAllowedMatch_eq_false (u : URL) (l : List String)
    (h : ∀ a ∈ l, ∀ au, parseURL a = some au →
      ¬ (u.hostname = au.hostname ∧ u.protocol = au.protocol)) :
    someAllowedMatch u l = false := by
  induction l with
  | nil => rfl
  | cons a rest ih =>
    simp only [someAllowedMatch]
    cases hp : parseURL a with
    | none => rfl
    | some au =>
      show (if u.hostname = au.hostname ∧ u.protocol = au.protocol then true
            else someAllowedMatch u rest) = false
      rw [if_neg (h a (by simp) au hp)]
      exact ih (fun b hb au2 hp2 => h b (by simp [hb]) au2 hp2)

lemma validateApiUrl_of_parse_none (s : String) (hp : parseURL s = none) :
    validateApiUrl (some s) = false := by
  simp only [validateApiUrl]
  by_cases hs : s = "" <;> simp [hs, hp]

lemma validateApiUrl_false_of_noMatch (s : String)
    (h : ∀ u, parseURL s = some u → ∀ a ∈ ALLOWED_APIS, ∀ au, parseURL a = some au →
      ¬ (u.hostname = au.hostname ∧ u.protocol = au.protocol)) :
    validateApiUrl (some s) = false := by
  simp only [validateApiUrl]
  by_cases hs : s = ""
  · simp [hs]
  · rw [if_neg hs]
    cases hp : parseURL s with
    | none => rfl
    | some u => exact someAllowedMatch_eq_false u ALLOWED_APIS (h u hp)

/-! ## CORS lookups on the response header families -/

lemma validateOrigin_false (o : String) (h0 : o ≠ "") (h1 : o ∉ ALLOWED_ORIGINS) :
    validateOrigin (some o) = false := by
  cases hvv : validateOrigin (some o)
  · rfl
  · rcases (validateOrigin_iff o).1 hvv with h | h
    · exact absurd h h0
    · exact absurd h h1

lemma optionsReject_false (origin : Option String)
    (h : origin = none ∨ ∃ o, origin = some o ∧ (o = "" ∨ o ∈ ALLOWED_ORIGINS)) :
    optionsReject origin = false := by
  rcases h with h | ⟨o, ho, h2⟩
  · rw [h]; rfl
  · rw [ho]
    rcases h2 with h2 | h2
    · simp [optionsReject, h2]
    · have hv : validateOrigin (some o) = true := (validateOrigin_iff o).2 (Or.inr h2)
      simp [optionsReject, hv]

lemma optionsReject_true (o : String) (h0 : o ≠ "") (h1 : o ∉ ALLOWED_ORIGINS) :
    optionsReject (some o) = true := by
  simp [optionsReject, h0, validateOrigin_false o h0 h1]

lemma jsonError_acao (origin : Option String) :
    headerGet (jsonErrorHeaders origin) "Access-Control-Allow-Origin" =
      headerGet (getCorsHeaders origin) "Access-Control-Allow-Origin" := by
  simp +decide [jsonErrorHeaders, headerGet_cons]

lemma passThrough_acao (resp : UpstreamResponse) (origin : Option String) :
    headerGet (passThroughResponse resp origin).headers "Access-Control-Allow-Origin" =
      headerGet (getCorsHeaders origin) "Access-Control-Allow-Origin" := by
  simp +decide [passThroughResponse, headerGet_cons]

lemma getCorsHeaders_acao_cases (origin : Option String) :
    headerGet (getCorsHeaders origin) "Access-Control-Allow-Origin" = none ∨
      ∃ o, origin = some o ∧ o ∈ ALLOWED_ORIGINS ∧
        headerGet (getCorsHeaders origin) "Access-Control-Allow-Origin" = some o := by
  rcases getCorsHeaders_cases origin with h | ⟨o, ho, h0, h1, h⟩
  · left; rw [h]; rfl
  · right; exact ⟨o, ho, h1, by rw [h]; exact corsHeadersFor_acao o⟩

lemma shape_acaoSound (origin : Option String) (r : Response)
    (hshape : isGatewayShape origin r) : acaoSound origin r := by
  unfold acaoSound
  have key : headerGet r.headers "Access-Control-Allow-Origin" =
      headerGet (getCorsHeaders origin) "Access-Control-Allow-Origin" := by
    rcases hshape with h | h | h | h | h | h | ⟨resp, h⟩ <;> subst h
    · exact jsonError_acao origin
    · exact jsonError_acao origin
    · exact jsonError_acao origin
    · exact jsonError_acao origin
    · exact jsonError_acao origin
    · exact jsonError_acao origin
    · exact passThrough_acao resp origin
  rw [key]
  exact getCorsHeaders_acao_cases origin

lemma acaoSound_ne_star (origin : Option String) (r : Response)
    (h : acaoSound origin r) :
    headerGet r.headers "Access-Control-Allow-Origin" ≠ some "*" := by
  rcases h with h | ⟨o, _, hmem, h⟩ <;> rw [h]
  · simp
  · intro he
    injection he with he2
    rw [he2] at hmem
    exact absurd hmem (by decide)

lemma shape_acao_vary_trusted (o : String) (r : Response)
    (hshape : isGatewayShape (some o) r)
    (h0 : o ≠ "") (h1 : o ∈ ALLOWED_ORIGINS) :
    headerGet r.headers "Access-Control-Allow-Origin" = some o ∧
      headerGet r.headers "Vary" = some "Origin" := by
  have hc := getCorsHeaders_trusted o h0 h1
  rcases hshape with h | h | h | h | h | h | ⟨resp, h⟩ <;> subst h <;>
    simp +decide [forbiddenResponse, badRequestResponse, requestTooLargeResponse,
      responseTooLargeResponse, gatewayTimeoutResponse, badGatewayResponse,
      passThroughResponse, jsonErrorHeaders, headerGet_cons, hc, corsHeadersFor,
      headerGet_nil]

lemma shape_noCors_untrusted (origin : Option String) (r : Response)
    (hshape : isGatewayShape origin r)
    (hu : getCorsHeaders origin = []) : noCorsHeaders r := by
  unfold noCorsHeaders
  rcases hshape with h | h | h | h | h | h | ⟨resp, h⟩ <;> subst h <;>
    simp +decide [forbiddenResponse, badRequestResponse, requestTooLargeResponse,
      responseTooLargeResponse, gatewayTimeoutResponse, badGatewayResponse,
      passThroughResponse, jsonErrorHeaders, headerGet_cons, hu, headerGet_nil]

lemma shape_body (origin : Option String) (r : Response)
    (hshape : isGatewayShape origin r) :
    (∃ resp, r = passThroughResponse resp origin) ∨
      ∃ fs, r.body = some (RespBody.jsonObj fs) := by
  rcases hshape with h | h | h | h | h | h | ⟨resp, h⟩ <;> subst h
  · exact Or.inr ⟨_, rfl⟩
  · exact Or.inr ⟨_, rfl⟩
  · exact Or.inr ⟨_, rfl⟩
  · exact Or.inr ⟨_, rfl⟩
  · exact Or.inr ⟨_, rfl⟩
  · exact Or.inr ⟨_, rfl⟩
  · exact Or.inl ⟨resp, rfl⟩

lemma options_headers_acaoSound (req : Request) :
    acaoSound (headerGet req.headers "Origin") (handleOptions req) := by
  cases hrej : optionsReject (headerGet req.headers "Origin") with
  | true =>
    rw [handleOptions_reject req hrej]
    exact Or.inl rfl
  | false =>
    cases hacrm : headerGet req.headers "Access-Control-Request-Method" with
    | some m =>
      rw [handleOptions_preflight req m hrej hacrm]
      unfold acaoSound
      rcases getCorsHeaders_cases (headerGet req.headers "Origin") with h | ⟨o, ho, h0, h1, h⟩
      · left
        simp +decide [h, setHeader, headerGet_cons, headerGet_nil]
      · right
        refine ⟨o, ho, h1, ?_⟩
        simp +decide [h, setHeader, corsHeadersFor, headerGet_cons]
    | none =>
      rw [handleOptions_standard req hrej hacrm]
      unfold acaoSound
      rcases getCorsHeaders_cases (headerGet req.headers "Origin") with h | ⟨o, ho, h0, h1, h⟩
      · left
        simp +decide [h, headerGet_cons, headerGet_nil]
      · right
        refine ⟨o, ho, h1, ?_⟩
        simp +decide [h, corsHeadersFor, headerGet_cons]

lemma options_acao_vary_trusted (req : Request) (o : String)
    (ho : headerGet req.headers "Origin" = some o)
    (h0 : o ≠ "") (h1 : o ∈ ALLOWED_ORIGINS) :
    headerGet (handleOptions req).headers "Access-Control-Allow-Origin" = some o ∧
      headerGet (handleOptions req).headers "Vary" = some "Origin" := by
  have hrej : optionsReject (headerGet req.headers "Origin") = false :=
    optionsReject_false _ (Or.inr ⟨o, ho, Or.inr h1⟩)
  have hc : getCorsHeaders (headerGet req.headers "Origin") = corsHeadersFor o := by
    rw [ho]; exact getCorsHeaders_trusted o h0 h1
  cases hacrm : headerGet req.headers "Access-Control-Request-Method" with
  | some m =>
    rw [handleOptions_preflight req m hrej hacrm]
    simp +decide [hc, setHeader, corsHeadersFor, headerGet_cons, headerGet_nil]
  | none =>
    rw [handleOptions_standard req hrej hacrm]
    simp +decide [hc, corsHeadersFor, headerGet_cons, headerGet_nil]

lemma passThrough_sensitive_none (resp : UpstreamResponse) (origin : Option String) :
    headerGet (passThroughResponse resp origin).headers "Authorization" = none ∧
    headerGet (passThroughResponse resp origin).headers "Cookie" = none ∧
    headerGet (passThroughResponse resp origin).headers "Set-Cookie" = none := by
  rcases getCorsHeaders_cases origin with h | ⟨o, _, _, _, h⟩ <;>
    simp +decide [passThroughResponse, headerGet_cons, h, corsHeadersFor, headerGet_nil]

lemma passThrough_header_names (resp : UpstreamResponse) (origin : Option String)
    (p : String × String) (hp : p ∈ (passThroughResponse resp origin).headers) :
    p.1 ∈ ["Content-Type", "Content-Length", "Access-Control-Allow-Origin",
           "Access-Control-Allow-Methods", "Access-Control-Allow-Headers",
           "Access-Control-Max-Age", "Vary"] := by
  simp only [passThroughResponse, List.mem_cons] at hp
  rcases hp with h | h | h
  · simp [h]
  · simp [h]
  · rcases getCorsHeaders_cases origin with hc | ⟨o, _, _, _, hc⟩
    · rw [hc] at h; cases h
    · rw [hc] at h
      simp only [corsHeadersFor, List.mem_cons, List.not_mem_nil, or_false] at h
      rcases h with h | h | h | h | h <;> simp [h]

lemma setHeader_acah_lookup (origin : Option String) (v : String) :
    headerGet (setHeader (getCorsHeaders origin) "Access-Control-Allow-Headers" v)
      "Access-Control-Allow-Headers" = some v := by
  rcases getCorsHeaders_cases origin with h | ⟨o, _, _, _, h⟩ <;> rw [h] <;>
    simp +decide [setHeader, corsHeadersFor, headerGet_cons, headerGet_nil]

/-! ## Claim theorems -/

/-- C1 (counterexample): the claim "a present but unparseable `apiurl`
yields status 400" is false on the code.  At a concrete GET to the proxy
route whose `apiurl` (`"ht!tp:::bad"`) the URL parser rejects, the
gateway answers 403, not 400: `validateApiUrl` already returns `false`
for unparseable input, so the dedicated 400 branch is never reached. -/
theorem c1_counterexample :
    searchParamGet reqBadUrl.url.searchParams "apiurl" = some "ht!tp:::bad" ∧
    parseURL "ht!tp:::bad" = none ∧
    startsWithStr reqBadUrl.url.pathname PROXY_ENDPOINT = true ∧
    FORWARDED_METHODS.contains reqBadUrl.method = true ∧
    (gatewayFetch uFail reqBadUrl).fst.status = 403 ∧
    (gatewayFetch uFail reqBadUrl).fst.status ≠ 400 := by
  decide

/-- C1 (amended): for every request to the proxy route (with a forwarded
method) whose `apiurl` query parameter is present but not parseable as an
absolute URL, the gateway responds with status 403 — the same status as
policy violations, because `validateApiUrl` already rejects unparseable
input — and makes no outbound call; the separate 400 branch is
unreachable for such inputs. -/
theorem c1_unparseable_apiurl_gives_403
    (upstream : ProxyRequest → FetchOutcome) (req : Request) (s : String)
    (hroute : startsWithStr req.url.pathname PROXY_ENDPOINT = true)
    (hm : FORWARDED_METHODS.contains req.method = true)
    (hq : searchParamGet req.url.searchParams "apiurl" = some s)
    (hp : parseURL s = none) :
    (gatewayFetch upstream req).fst.status = 403 ∧
    (gatewayFetch upstream req).snd = [] := by
  rw [gatewayFetch_forwarded upstream req hroute hm]
  have hv : validateApiUrl (searchParamGet req.url.searchParams "apiurl") = false := by
    rw [hq]; exact validateApiUrl_of_parse_none s hp
  rw [handleSecureRequest_invalid upstream req hv]
  exact ⟨rfl, rfl⟩

/-- Witness for C1 (amended), at the concrete unparseable-target request. -/
theorem c1_unparseable_apiurl_gives_403_witness :
    (gatewayFetch uFail reqBadUrl).fst.status = 403 ∧
    (gatewayFetch uFail reqBadUrl).snd = [] :=
  c1_unparseable_apiurl_gives_403 uFail reqBadUrl "ht!tp:::bad"
    (by decide) (by decide) (by decide) (by decide)

/-- C2: for every request to the proxy route (with a forwarded method)
whose `apiurl` query parameter is absent, or whose target's
(scheme, host) pair exactly matches no entry of `ALLOWED_APIS`, the
gateway responds with status 403 and issues no outbound request. -/
theorem c2_disallowed_target_403
    (upstream : ProxyRequest → FetchOutcome) (req : Request)
    (hroute : startsWithStr req.url.pathname PROXY_ENDPOINT = true)
    (hm : FORWARDED_METHODS.contains req.method = true)
    (h : searchParamGet req.url.searchParams "apiurl" = none ∨
      ∃ s, searchParamGet req.url.searchParams "apiurl" = some s ∧
        ∀ u, parseURL s = some u → ∀ a ∈ ALLOWED_APIS, ∀ au, parseURL a = some au →
          ¬ (u.hostname = au.hostname ∧ u.protocol = au.protocol)) :
    (gatewayFetch upstream req).fst.status = 403 ∧
    (gatewayFetch upstream req).snd = [] := by
  rw [gatewayFetch_forwarded upstream req hroute hm]
  have hv : validateApiUrl (searchParamGet req.url.searchParams "apiurl") = false := by
    rcases h with h | ⟨s, hq, hno⟩
    · rw [h]; rfl
    · rw [hq]; exact validateApiUrl_false_of_noMatch s hno
  rw [handleSecureRequest_invalid upstream req hv]
  exact ⟨rfl, rfl⟩

/-- Witness for C2, at the concrete request with no `apiurl` parameter. -/
theorem c2_disallowed_target_403_witness :
    (gatewayFetch uFail reqNoParam).fst.status = 403 ∧
    (gatewayFetch uFail reqNoParam).snd = [] :=
  c2_disallowed_target_403 uFail reqNoParam (by decide) (by decide)
    (Or.inl (by decide))

/-- C3 (counterexample): the claim "every response produced by the
gateway carries `Access-Control-Allow-Origin` equal to a trusted
request Origin" is false: a PATCH to the proxy route from the trusted
origin `https://yourdomain.com` receives the 405 response, which carries
no `Access-Control-Allow-Origin` (and no `Vary`) header at all. -/
theorem c3_counterexample :
    headerGet reqPatchTrusted.headers "Origin" = some "https://yourdomain.com" ∧
    "https://yourdomain.com" ∈ ALLOWED_ORIGINS ∧
    startsWithStr reqPatchTrusted.url.pathname PROXY_ENDPOINT = true ∧
    (gatewayFetch uFail reqPatchTrusted).fst.status = 405 ∧
    headerGet (gatewayFetch uFail reqPatchTrusted).fst.headers
      "Access-Control-Allow-Origin" = none ∧
    headerGet (gatewayFetch uFail reqPatchTrusted).fst.headers "Vary" = none := by
  decide

/-- C3 (amended): restricted to the responses of the secure proxy
handler and the OPTIONS handler (the 405 and demo-page branches attach
no CORS headers): for a trusted request Origin, both handlers' responses
carry `Access-Control-Allow-Origin` equal to that origin and
`Vary: Origin`; for an absent or non-allow-listed Origin, every secure
handler response carries none of the five CORS headers, and every
response is either the upstream pass-through or a structured JSON error
object. -/
theorem c3_cors_header_policy
    (upstream : ProxyRequest → FetchOutcome) (req : Request) :
    (∀ o, headerGet req.headers "Origin" = some o → o ≠ "" → o ∈ ALLOWED_ORIGINS →
      (headerGet (handleSecureRequest upstream req).fst.headers
          "Access-Control-Allow-Origin" = some o ∧
        headerGet (handleSecureRequest upstream req).fst.headers "Vary" = some "Origin" ∧
        headerGet (handleOptions req).headers "Access-Control-Allow-Origin" = some o ∧
        headerGet (handleOptions req).headers "Vary" = some "Origin")) ∧
    ((headerGet req.headers "Origin" = none ∨
      ∃ o, headerGet req.headers "Origin" = some o ∧ o ∉ ALLOWED_ORIGINS) →
      (noCorsHeaders (handleSecureRequest upstream req).fst ∧
        ((∃ resp, (handleSecureRequest upstream req).fst =
            passThroughResponse resp (headerGet req.headers "Origin")) ∨
          ∃ fs, (handleSecureRequest upstream req).fst.body =
            some (RespBody.jsonObj fs)))) := by
  constructor
  · intro o ho h0 h1
    have hshape := handleSecureRequest_shape upstream req
    rw [ho] at hshape
    obtain ⟨ha, hv⟩ := shape_acao_vary_trusted o _ hshape h0 h1
    obtain ⟨ha2, hv2⟩ := options_acao_vary_trusted req o ho h0 h1
    exact ⟨ha, hv, ha2, hv2⟩
  · intro hu
    have hshape := handleSecureRequest_shape upstream req
    have hnil : getCorsHeaders (headerGet req.headers "Origin") = [] := by
      rcases hu with h | ⟨o, ho, h1⟩
      · rw [h]; rfl
      · rw [ho]; exact getCorsHeaders_untrusted o h1
    exact ⟨shape_noCors_untrusted _ _ hshape hnil, shape_body _ _ hshape⟩

/-- Witness for C3 (amended): the trusted-origin clause at a valid GET
from `https://yourdomain.com`, and the untrusted clause at the same GET
without an Origin header. -/
theorem c3_cors_header_policy_witness :
    headerGet (handleSecureRequest uOk reqValidGet).fst.headers
      "Access-Control-Allow-Origin" = some "https://yourdomain.com" ∧
    noCorsHeaders (handleSecureRequest uOk reqNoOrigin).fst :=
  ⟨((c3_cors_header_policy uOk reqValidGet).1 "https://yourdomain.com"
      (by decide) (by decide) (by decide)).1,
   ((c3_cors_header_policy uOk reqNoOrigin).2 (Or.inl (by decide))).1⟩

/-- C8: every response of the secure proxy handler and of the OPTIONS
handler either carries no `Access-Control-Allow-Origin` header, or
carries one equal to the request's Origin and a member of
`ALLOWED_ORIGINS`; in particular neither handler ever emits the
wildcard value `*`. -/
theorem c8_acao_invariant
    (upstream : ProxyRequest → FetchOutcome) (req : Request) :
    acaoSound (headerGet req.headers "Origin") (handleSecureRequest upstream req).fst ∧
    acaoSound (headerGet req.headers "Origin") (handleOptions req) ∧
    headerGet (handleSecureRequest upstream req).fst.headers
      "Access-Control-Allow-Origin" ≠ some "*" ∧
    headerGet (handleOptions req).headers "Access-Control-Allow-Origin" ≠ some "*" := by
  have h1 := shape_acaoSound _ _ (handleSecureRequest_shape upstream req)
  have h2 := options_headers_acaoSound req
  exact ⟨h1, h2, acaoSound_ne_star _ _ h1, acaoSound_ne_star _ _ h2⟩

/-- C4: for every proxied request where the upstream fetch succeeds with
a declared size within the 10 MiB ceiling, the final response copies
status, status text and body verbatim from upstream; its header names
are limited to content-type, content-length and the five CORS headers;
and upstream `Authorization`, `Cookie` and `Set-Cookie` headers never
appear in it. -/
theorem c4_passthrough_response
    (upstream : ProxyRequest → FetchOutcome) (req : Request) (s : String)
    (resp : UpstreamResponse)
    (hq : searchParamGet req.url.searchParams "apiurl" = some s)
    (hv : validateApiUrl (some s) = true)
    (hl : requestTooLarge (headerGet req.headers "content-length") = false)
    (hup : upstream (mkProxyRequest s req) = .success resp)
    (hr : responseTooLarge (headerGet resp.headers "content-length") = false) :
    (handleSecureRequest upstream req).fst.status = resp.status ∧
    (handleSecureRequest upstream req).fst.statusText = resp.statusText ∧
    (handleSecureRequest upstream req).fst.body = resp.body.map RespBody.stream ∧
    (∀ p ∈ (handleSecureRequest upstream req).fst.headers,
      p.1 ∈ ["Content-Type", "Content-Length", "Access-Control-Allow-Origin",
             "Access-Control-Allow-Methods", "Access-Control-Allow-Headers",
             "Access-Control-Max-Age", "Vary"]) ∧
    headerGet (handleSecureRequest upstream req).fst.headers "Authorization" = none ∧
    headerGet (handleSecureRequest upstream req).fst.headers "Cookie" = none ∧
    headerGet (handleSecureRequest upstream req).fst.headers "Set-Cookie" = none := by
  rw [handleSecureRequest_forward upstream req s hq hv hl]
  have hres : forwardPhase upstream (headerGet req.headers "Origin") (mkProxyRequest s req) =
      (passThroughResponse resp (headerGet req.headers "Origin"), [mkProxyRequest s req]) := by
    unfold forwardPhase
    rw [hup]
    have hcond : ¬ (responseTooLarge (headerGet resp.headers "content-length") = true) := by
      simp [hr]
    simp [hcond]
  rw [hres]
  obtain ⟨hauth, hcook, hsetc⟩ :=
    passThrough_sensitive_none resp (headerGet req.headers "Origin")
  exact ⟨rfl, rfl, rfl,
    fun p hp => passThrough_header_names resp (headerGet req.headers "Origin") p hp,
    hauth, hcook, hsetc⟩

/-- Witness for C4, at the trusted-origin GET against the fixed
successful upstream (whose response carries `Set-Cookie` and
`Authorization` headers that must be stripped). -/
theorem c4_passthrough_response_witness :
    (handleSecureRequest uOk reqValidGet).fst.status = respOk.status ∧
    headerGet (handleSecureRequest uOk reqValidGet).fst.headers "Set-Cookie" = none ∧
    headerGet (handleSecureRequest uOk reqValidGet).fst.headers "Authorization" = none := by
  have h := c4_passthrough_response uOk reqValidGet "https://httpbin.org/get" respOk
    (by decide) (by decide) (by decide) (by decide) (by decide)
  exact ⟨h.1, h.2.2.2.2.2.2, h.2.2.2.2.1⟩

/-- C5 (counterexample): the claim "every OPTIONS request to the proxy
route carrying `Access-Control-Request-Method` gets the CORS headers
plus an echoed `Access-Control-Allow-Headers`" is false: an OPTIONS
preflight from the non-allow-listed origin `https://evil.com` carrying
`Access-Control-Request-Method: GET` receives a bare 200 response with
no headers at all. -/
theorem c5_counterexample :
    headerGet reqEvilOptions.headers "Access-Control-Request-Method" = some "GET" ∧
    startsWithStr reqEvilOptions.url.pathname PROXY_ENDPOINT = true ∧
    reqEvilOptions.method = "OPTIONS" ∧
    (gatewayFetch uFail reqEvilOptions).fst.headers = [] ∧
    headerGet (gatewayFetch uFail reqEvilOptions).fst.headers
      "Access-Control-Allow-Headers" = none := by
  decide

/-- C5 (amended): for every OPTIONS request to the proxy route whose
Origin is absent, empty, or allow-listed: if it carries
`Access-Control-Request-Method` the gateway responds with no body and
the Header Policy's CORS headers in which the explicit
`Access-Control-Allow-Headers` property overrides the static one, so
the effective `Access-Control-Allow-Headers` value echoes the request's
`Access-Control-Request-Headers` (defaulting to `Content-Type`);
otherwise it responds with no body and a bare `Allow` listing.  An
OPTIONS request from a truthy non-allow-listed Origin instead receives a
bare 200 response with no headers and no body. -/
theorem c5_options_handling
    (upstream : ProxyRequest → FetchOutcome) (req : Request)
    (hroute : startsWithStr req.url.pathname PROXY_ENDPOINT = true)
    (hm : req.method = "OPTIONS") :
    ((headerGet req.headers "Origin" = none ∨
      ∃ o, headerGet req.headers "Origin" = some o ∧ (o = "" ∨ o ∈ ALLOWED_ORIGINS)) →
      (((headerGet req.headers "Access-Control-Request-Method").isSome = true →
        (gatewayFetch upstream req).fst.body = none ∧
        (gatewayFetch upstream req).fst.headers =
          setHeader (getCorsHeaders (headerGet req.headers "Origin"))
            "Access-Control-Allow-Headers"
            (orDefault (headerGet req.headers "Access-Control-Request-Headers")
              "Content-Type") ∧
        headerGet (gatewayFetch upstream req).fst.headers
            "Access-Control-Allow-Headers" =
          some (orDefault (headerGet req.headers "Access-Control-Request-Headers")
            "Content-Type")) ∧
       (headerGet req.headers "Access-Control-Request-Method" = none →
        (gatewayFetch upstream req).fst.body = none ∧
        (gatewayFetch upstream req).fst.headers =
          ("Allow", "GET, HEAD, POST, OPTIONS") ::
            getCorsHeaders (headerGet req.headers "Origin")))) ∧
    (∀ o, headerGet req.headers "Origin" = some o → o ≠ "" → o ∉ ALLOWED_ORIGINS →
      (gatewayFetch upstream req).fst =
        { status := 200, statusText := "", headers := [], body := none }) := by
  rw [gatewayFetch_options upstream req hroute hm]
  constructor
  · intro horig
    have hrej : optionsReject (headerGet req.headers "Origin") = false :=
      optionsReject_false _ horig
    constructor
    · intro hsome
      obtain ⟨m, hm2⟩ := Option.isSome_iff_exists.1 hsome
      rw [handleOptions_preflight req m hrej hm2]
      exact ⟨rfl, rfl, setHeader_acah_lookup (headerGet req.headers "Origin") _⟩
    · intro hnone
      rw [handleOptions_standard req hrej hnone]
      exact ⟨rfl, rfl⟩
  · intro o ho h0 h1
    have hrej : optionsReject (headerGet req.headers "Origin") = true := by
      rw [ho]; exact optionsReject_true o h0 h1
    rw [handleOptions_reject req hrej]

/-- Witness for C5 (amended), at the trusted-origin preflight requesting
a custom header: the effective `Access-Control-Allow-Headers` is the
echoed `X-Custom-Header`, not the static CORS value. -/
theorem c5_options_handling_witness :
    (gatewayFetch uFail reqPreflight).fst.body = none ∧
    headerGet (gatewayFetch uFail reqPreflight).fst.headers
      "Access-Control-Allow-Headers" = some "X-Custom-Header" := by
  have h := ((c5_options_handling uFail reqPreflight (by decide) (by decide)).1
    (Or.inr ⟨"https://yourdomain.com", by decide, Or.inr (by decide)⟩)).1 (by decide)
  exact ⟨h.1, h.2.2⟩

/-- C6: for every request to the proxy route (with a forwarded method)
with a valid allow-listed target whose declared `Content-Length` parses
to a number, a value strictly greater than 1 MiB yields status 413 with
no outbound call, while a value of 1 MiB or less leaves the size check
off and the request proceeds to forwarding (exactly one outbound
request is issued). -/
theorem c6_request_size_ceiling
    (upstream : ProxyRequest → FetchOutcome) (req : Request) (s cl : String) (n : Int)
    (hroute : startsWithStr req.url.pathname PROXY_ENDPOINT = true)
    (hm : FORWARDED_METHODS.contains req.method = true)
    (hq : searchParamGet req.url.searchParams "apiurl" = some s)
    (hv : validateApiUrl (some s) = true)
    (hcl : headerGet req.headers "content-length" = some cl)
    (hn : parseIntJS cl = some n) :
    (n > 1024 * 1024 →
      (gatewayFetch upstream req).fst.status = 413 ∧
      (gatewayFetch upstream req).snd = []) ∧
    (n ≤ 1024 * 1024 →
      requestTooLarge (some cl) = false ∧
      (gatewayFetch upstream req).snd = [mkProxyRequest s req]) := by
  rw [gatewayFetch_forwarded upstream req hroute hm]
  have hce : cl ≠ "" := by
    intro h
    rw [h, show parseIntJS "" = none from rfl] at hn
    cases hn
  constructor
  · intro hgt
    have htl : requestTooLarge (headerGet req.headers "content-length") = true := by
      rw [hcl]
      simp [requestTooLarge, hce, hn]
      omega
    rw [handleSecureRequest_tooLarge upstream req s hq hv htl]
    exact ⟨rfl, rfl⟩
  · intro hle
    have h1 : requestTooLarge (some cl) = false := by
      simp only [requestTooLarge, if_neg hce, hn]
      simp
      omega
    have htl : requestTooLarge (headerGet req.headers "content-length") = false := by
      rw [hcl]; exact h1
    rw [handleSecureRequest_forward upstream req s hq hv htl]
    exact ⟨h1, forwardPhase_snd upstream _ _⟩

/-- Witness for C6, at the valid POST declaring 1048577 bytes. -/
theorem c6_request_size_ceiling_witness :
    (gatewayFetch uOk reqBigBody).fst.status = 413 ∧
    (gatewayFetch uOk reqBigBody).snd = [] :=
  (c6_request_size_ceiling uOk reqBigBody "https://httpbin.org/post" "1048577" 1048577
    (by decide) (by decide) (by decide) (by decide) (by decide) (by decide)).1 (by decide)

/-- C7: for every proxied request reaching the forwarding phase, exactly
one outbound request is issued (no retry); if the single outbound call
is aborted by the 10-second timeout the gateway answers 504, and on any
other transport failure 502. -/
theorem c7_timeout_and_transport_failure
    (upstream : ProxyRequest → FetchOutcome) (req : Request) (s : String)
    (hq : searchParamGet req.url.searchParams "apiurl" = some s)
    (hv : validateApiUrl (some s) = true)
    (hl : requestTooLarge (headerGet req.headers "content-length") = false) :
    (handleSecureRequest upstream req).snd = [mkProxyRequest s req] ∧
    (upstream (mkProxyRequest s req) = .timeout →
      (handleSecureRequest upstream req).fst.status = 504) ∧
    (upstream (mkProxyRequest s req) = .failure →
      (handleSecureRequest upstream req).fst.status = 502) := by
  rw [handleSecureRequest_forward upstream req s hq hv hl]
  refine ⟨forwardPhase_snd upstream _ _, ?_, ?_⟩
  · intro h
    unfold forwardPhase
    rw [h]
    rfl
  · intro h
    unfold forwardPhase
    rw [h]
    rfl

/-- Witness for C7, at the valid GET against the always-timing-out
upstream. -/
theorem c7_timeout_and_transport_failure_witness :
    (handleSecureRequest uTime reqValidGet).fst.status = 504 ∧
    (handleSecureRequest uTime reqValidGet).snd =
      [mkProxyRequest "https://httpbin.org/get" reqValidGet] := by
  have h := c7_timeout_and_transport_failure uTime reqValidGet "https://httpbin.org/get"
    (by decide) (by decide) (by decide)
  exact ⟨h.2.1 (by decide), h.1⟩

/-- C9: evaluating the secure handler twice on the same valid proxied
GET request against a stable upstream (two upstream functions agreeing
on every outbound request) yields structurally identical responses:
same status and same body. -/
theorem c9_idempotent_get
    (u1 u2 : ProxyRequest → FetchOutcome) (req : Request)
    (hstable : ∀ p, u1 p = u2 p)
    (hget : req.method = "GET")
    (hv : validateApiUrl (searchParamGet req.url.searchParams "apiurl") = true) :
    (handleSecureRequest u1 req).fst.status = (handleSecureRequest u2 req).fst.status ∧
    (handleSecureRequest u1 req).fst.body = (handleSecureRequest u2 req).fst.body := by
  have h : u1 = u2 := funext hstable
  subst h
  exact ⟨rfl, rfl⟩

/-- Witness for C9, at the valid trusted-origin GET against the fixed
successful upstream. -/
theorem c9_idempotent_get_witness :
    (handleSecureRequest uOk reqValidGet).fst.status =
      (handleSecureRequest uOk reqValidGet).fst.status ∧
    (handleSecureRequest uOk reqValidGet).fst.body =
      (handleSecureRequest uOk reqValidGet).fst.body :=
  c9_idempotent_get uOk uOk reqValidGet (fun _ => rfl) (by decide) (by decide)

/-- C10: for every request to the proxy route (forwarded method, valid
allow-listed target) whose `Content-Length` header is present but does
not parse to a number (`parseInt` yields `NaN`), the 1 MiB size check
does not trigger and the request proceeds to forwarding (exactly one
outbound request is issued). -/
theorem c10_nan_content_length_forwards
    (upstream : ProxyRequest → FetchOutcome) (req : Request) (s cl : String)
    (hroute : startsWithStr req.url.pathname PROXY_ENDPOINT = true)
    (hm : FORWARDED_METHODS.contains req.method = true)
    (hq : searchParamGet req.url.searchParams "apiurl" = some s)
    (hv : validateApiUrl (some s) = true)
    (hcl : headerGet req.headers "content-length" = some cl)
    (hnan : parseIntJS cl = none) :
    requestTooLarge (some cl) = false ∧
    (gatewayFetch upstream req).snd = [mkProxyRequest s req] := by
  have h1 : requestTooLarge (some cl) = false := by
    by_cases hce : cl = ""
    · simp [requestTooLarge, hce]
    · simp [requestTooLarge, hce, hnan]
  have htl : requestTooLarge (headerGet req.headers "content-length") = false := by
    rw [hcl]; exact h1
  rw [gatewayFetch_forwarded upstream req hroute hm,
      handleSecureRequest_forward upstream req s hq hv htl]
  exact ⟨h1, forwardPhase_snd upstream _ _⟩

/-- Witness for C10, at the valid POST whose `Content-Length` is the
non-numeric string `oops`. -/
theorem c10_nan_content_length_forwards_witness :
    requestTooLarge (some "oops") = false ∧
    (gatewayFetch uOk reqNanLength).snd =
      [mkProxyRequest "https://httpbin.org/post" reqNanLength] :=
  c10_nan_content_length_forwards uOk reqNanLength "https://httpbin.org/post" "oops"
    (by decide) (by decide) (by decide) (by decide) (by decide) (by decide)

end CorsProxy
